import Mathlib

/-!
Verification of the CS-HANDOFF shift-handoff application against its
natural-language specification.

This file shallowly embeds the policy logic and request handlers of the
application in Lean:

* the status policy (`normStatus`, `isResolvedStatus`, `isFollowupStatus`)
  of the onboarding-gated feed screen, the detail screen variant, and the
  legacy feed variant;
* the feed ordering policy (`visibleHandoffs`): JavaScript
  `Array.prototype.sort` (specified to be stable and consistent with the
  comparator) is modelled by the stable `List.insertionSort` over the
  relation `cmp a b ≤ 0` of the source comparator;
* the resolve operation of the detail screen (`markResolved`), with the
  backend modelled as explicit request/response values, ISO timestamps as
  integers ordered the same way;
* the three serverless handlers (id-addressed SMS relay, token-addressed
  SMS relay, outbound alert audit) as functions from a request to a
  response tag together with the list of row inserts they issue;
* the feed loaders (`loadSessionAndFeed` of the gated and the legacy feed
  screen) as functions from backend responses to a result state carrying
  the trace of data requests issued.

JavaScript string falsiness (`x || d` replaces `null`, `undefined` and
`""` by `d`) is embedded by `jsOrStr`; `??` (nullish coalescing) is
`Option.getD`.
-/

set_option maxHeartbeats 1000000

namespace CSHandoff

/-- JS `x || d` for an optional string: `null`/`undefined`/`""` are falsy and
fall back to the default `d`. -/
def jsOrStr (s : Option String) (d : String) : String :=
  match s with
  | none => d
  | some t => if t = "" then d else t

/-- ASCII whitespace, the fragment of the character class removed by
JavaScript's `String.prototype.trim` that occurs in this application's data. -/
def isJsSpace (c : Char) : Bool :=
  c == ' ' || c == '\t' || c == '\n' || c == '\r' || c == '\x0b' || c == '\x0c'

/-- JS `s.trim()`: drop leading and trailing whitespace. -/
def strTrim (s : String) : String :=
  String.mk (((s.data.dropWhile isJsSpace).reverse.dropWhile isJsSpace).reverse)

/-- JS `s.toLowerCase()` on the ASCII strings this application compares. -/
def strToLower (s : String) : String :=
  String.mk (s.data.map Char.toLower)

/-! ### Status policy

Three variants occur in the sources:

* the onboarding-gated feed (unnamed part_001, lines 23-31):
  `normStatus`, `isResolvedStatus`, `isFollowupStatus` — trim, lowercase,
  default `"open"`, resolved iff `"resolved"`;
* the detail screen (unnamed part_000, lines 55-58): `isResolvedStatus`
  inlining the same normalization;
* the legacy feed (src/app/page.tsx, lines 19-22): no trim, and `"closed"`
  also counts as resolved.
-/

/-- `normStatus` of the gated feed: `(status || "open").trim().toLowerCase()`. -/
def normStatus (status : Option String) : String :=
  strToLower (strTrim (jsOrStr status "open"))

/-- `isResolvedStatus` of the gated feed: `normStatus(status) === "resolved"`. -/
def isResolvedStatus (status : Option String) : Bool :=
  normStatus status == "resolved"

/-- `isFollowupStatus` of the gated feed: `normStatus(status) === "needs_followup"`. -/
def isFollowupStatus (status : Option String) : Bool :=
  normStatus status == "needs_followup"

/-- `isResolvedStatus` of the detail screen (part_000):
`(status || "open").trim().toLowerCase() === "resolved"`. -/
def isResolvedStatusDetail (status : Option String) : Bool :=
  strToLower (strTrim (jsOrStr status "open")) == "resolved"

/-- `isResolvedStatus` of the legacy feed (src/app/page.tsx): no `trim`, and
`"closed"` is also treated as resolved:
`const s = (status || "open").toLowerCase(); return s === "resolved" || s === "closed"`. -/
def isResolvedStatusLegacy (status : Option String) : Bool :=
  let s := strToLower (jsOrStr status "open")
  s == "resolved" || s == "closed"

/-- The three-way classification realized by the gated feed's `StatusPill`:
`resolved ? ... : followup ? ... : open`. -/
def statusClass (status : Option String) : String :=
  if isResolvedStatus status then "resolved"
  else if isFollowupStatus status then "needs_followup"
  else "open"

/-- The label rendered by the gated feed's `StatusPill`:
`resolved ? "RESOLVED" : followup ? "FOLLOW-UP" : "OPEN"`. -/
def statusPillLabel (status : Option String) : String :=
  if isResolvedStatus status then "RESOLVED"
  else if isFollowupStatus status then "FOLLOW-UP"
  else "OPEN"

/-- C1 counterexample: the classification is NOT the same across every
screen's status-policy function. On input `" Resolved "` the gated feed (which
trims) classifies resolved while the legacy feed (which does not trim)
classifies unresolved; on input `"closed"` the legacy feed classifies resolved
while the gated feed classifies open. -/
theorem c1_policy_counterexample :
    isResolvedStatus (some " Resolved ") = true ∧
    isResolvedStatusLegacy (some " Resolved ") = false ∧
    isResolvedStatusLegacy (some "closed") = true ∧
    isResolvedStatus (some "closed") = false := by
  refine ⟨by decide, by decide, by decide, by decide⟩

/-- C1 (amended): the canonical status policy (shared verbatim by the gated
feed and the detail screen) trims, lowercases and defaults to `"open"`,
classifying every raw input into exactly one of open / needs_followup /
resolved, with `null`, `""`, `"OPEN"` and `"bogus"` classifying as open and
`" Resolved "` as resolved; the detail screen's function agrees with the gated
feed's on every input. (The legacy feed's variant differs; see the
counterexample.) -/
theorem c1_status_policy (s : Option String) :
    normStatus s = strToLower (strTrim (jsOrStr s "open")) ∧
    (isResolvedStatus s && isFollowupStatus s) = false ∧
    isResolvedStatusDetail s = isResolvedStatus s ∧
    statusClass none = "open" ∧
    statusClass (some "") = "open" ∧
    statusClass (some "OPEN") = "open" ∧
    statusClass (some " Resolved ") = "resolved" ∧
    statusClass (some "bogus") = "open" ∧
    statusClass (some "needs_followup") = "needs_followup" := by
  refine ⟨rfl, ?_, rfl, by decide, by decide, by decide, by decide, by decide, by decide⟩
  cases h : isResolvedStatus s with
  | false => simp [h]
  | true =>
    have hres : normStatus s = "resolved" := by
      simpa [isResolvedStatus] using h
    simp [h, isFollowupStatus, hres]

/-! ### Data model and feed ordering policy

The `HandoffRow` record mirrors the `HandoffRow` type of the feed screens.
ISO-8601 timestamp strings are embedded as integers (epoch milliseconds, the
value `new Date(s).getTime()` computes), which the backend orders the same
way. `a.last_update_at ?? a.created_at` is nullish coalescing, i.e.
`Option.getD`.
-/

structure HandoffRow where
  id : String
  created_at : Int
  summary : String
  category : String
  priority : String
  location_code : Option String
  status : Option String
  last_update_at : Option Int
  last_update_by_snapshot : Option String
deriving Repr, DecidableEq

/-- Effective timestamp used by the comparator:
`new Date(a.last_update_at ?? a.created_at).getTime()`. -/
def effTime (h : HandoffRow) : Int :=
  h.last_update_at.getD h.created_at

/-- The `visibleHandoffs` comparator, as the boolean relation `cmp a b ≤ 0`,
parameterized by the screen's resolved-predicate `res` (the gated and the
legacy feed share the comparator text over their respective
`isResolvedStatus`): unresolved first, then effective timestamp descending. -/
def feedLeGen (res : Option String → Bool) (a b : HandoffRow) : Bool :=
  if res a.status != res b.status then !(res a.status)
  else decide (effTime b ≤ effTime a)

/-- The gated feed's comparator relation. -/
def feedLe : HandoffRow → HandoffRow → Bool := feedLeGen isResolvedStatus

/-- The legacy feed's comparator relation. -/
def feedLeLegacy : HandoffRow → HandoffRow → Bool := feedLeGen isResolvedStatusLegacy

/-- `[...handoffs].sort(cmp)`: the stable sort consistent with the comparator. -/
def sortFeedGen (res : Option String → Bool) (l : List HandoffRow) : List HandoffRow :=
  l.insertionSort (fun a b => feedLeGen res a b = true)

/-- `visibleHandoffs`: sort, then (unless `showResolved`) drop resolved rows. -/
def visibleHandoffsGen (res : Option String → Bool) (handoffs : List HandoffRow)
    (showResolved : Bool) : List HandoffRow :=
  if showResolved then sortFeedGen res handoffs
  else (sortFeedGen res handoffs).filter (fun h => !(res h.status))

/-- `visibleHandoffs` of the onboarding-gated feed (part_001, lines 138-154). -/
def visibleHandoffs (handoffs : List HandoffRow) (showResolved : Bool) : List HandoffRow :=
  visibleHandoffsGen isResolvedStatus handoffs showResolved

/-- `visibleHandoffs` of the legacy feed (src/app/page.tsx, lines 92-108). -/
def visibleHandoffsLegacy (handoffs : List HandoffRow) (showResolved : Bool) : List HandoffRow :=
  visibleHandoffsGen isResolvedStatusLegacy handoffs showResolved

theorem feedLeGen_total (res : Option String → Bool) (a b : HandoffRow) :
    (feedLeGen res a b || feedLeGen res b a) = true := by
  unfold feedLeGen
  cases ha : res a.status <;> cases hb : res b.status <;> simp [ha, hb] <;> omega

theorem feedLeGen_trans (res : Option String → Bool) (a b c : HandoffRow) :
    feedLeGen res a b = true → feedLeGen res b c = true → feedLeGen res a c = true := by
  unfold feedLeGen
  cases ha : res a.status <;> cases hb : res b.status <;> cases hc : res c.status <;>
    simp [ha, hb, hc] <;> omega

theorem sorted_sortFeedGen (res : Option String → Bool) (l : List HandoffRow) :
    (sortFeedGen res l).Sorted (fun a b => feedLeGen res a b = true) := by
  haveI : IsTotal HandoffRow (fun a b => feedLeGen res a b = true) := by
    constructor
    intro a b
    have := feedLeGen_total res a b
    simpa [Bool.or_eq_true] using this
  haveI : IsTrans HandoffRow (fun a b => feedLeGen res a b = true) := by
    constructor
    intro a b c
    exact feedLeGen_trans res a b c
  exact List.sorted_insertionSort _ l

theorem sorted_visibleHandoffsGen (res : Option String → Bool) (l : List HandoffRow)
    (sr : Bool) :
    (visibleHandoffsGen res l sr).Sorted (fun a b => feedLeGen res a b = true) := by
  unfold visibleHandoffsGen
  cases sr with
  | false => simpa using (sorted_sortFeedGen res l).filter _
  | true => simpa using sorted_sortFeedGen res l

/-- A default row (used only as the out-of-range fallback of `List.getD`). -/
def defaultRow : HandoffRow :=
  { id := "", created_at := 0, summary := "", category := "", priority := "",
    location_code := none, status := none, last_update_at := none,
    last_update_by_snapshot := none }

theorem visibleHandoffsGen_ordering (res : Option String → Bool) (l : List HandoffRow)
    (sr : Bool) (i j : Nat)
    (hi : i < (visibleHandoffsGen res l sr).length)
    (hj : j < (visibleHandoffsGen res l sr).length) (hij : i < j) :
    (res ((visibleHandoffsGen res l sr).getD i defaultRow).status = true →
       res ((visibleHandoffsGen res l sr).getD j defaultRow).status = true) ∧
    (res ((visibleHandoffsGen res l sr).getD i defaultRow).status
        = res ((visibleHandoffsGen res l sr).getD j defaultRow).status →
       effTime ((visibleHandoffsGen res l sr).getD j defaultRow)
         ≤ effTime ((visibleHandoffsGen res l sr).getD i defaultRow)) := by
  have hp := sorted_visibleHandoffsGen res l sr
  rw [List.Sorted, List.pairwise_iff_getElem] at hp
  have h := hp i j hi hj hij
  rw [List.getD_eq_getElem _ _ hi, List.getD_eq_getElem _ _ hj]
  revert h
  unfold feedLeGen
  cases hri : res ((visibleHandoffsGen res l sr)[i]).status <;>
    cases hrj : res ((visibleHandoffsGen res l sr)[j]).status <;>
      intro h <;> simp [hri, hrj] at h ⊢ <;> omega

/-- C2: after applying either feed screen's ordering policy, every resolved
item is placed after every unresolved item, and within each group the
effective timestamps (last-update when present, else creation) are
non-increasing. Stated for the onboarding-gated feed's `visibleHandoffs`;
`visibleHandoffsGen_ordering` gives the identical fact for the legacy feed. -/
theorem c2_feed_ordering (l : List HandoffRow) (sr : Bool) (i j : Nat)
    (hi : i < (visibleHandoffs l sr).length)
    (hj : j < (visibleHandoffs l sr).length) (hij : i < j) :
    (isResolvedStatus ((visibleHandoffs l sr).getD i defaultRow).status = true →
       isResolvedStatus ((visibleHandoffs l sr).getD j defaultRow).status = true) ∧
    (isResolvedStatus ((visibleHandoffs l sr).getD i defaultRow).status
        = isResolvedStatus ((visibleHandoffs l sr).getD j defaultRow).status →
       effTime ((visibleHandoffs l sr).getD j defaultRow)
         ≤ effTime ((visibleHandoffs l sr).getD i defaultRow)) :=
  visibleHandoffsGen_ordering isResolvedStatus l sr i j hi hj hij

/-- A resolved demo row (last updated at time 500). -/
def demoA : HandoffRow :=
  { id := "a", created_at := 100, summary := "vent check", category := "equipment",
    priority := "high", location_code := some "ICU-1", status := some "resolved",
    last_update_at := some 500, last_update_by_snapshot := none }

/-- An open demo row (never updated, created at time 200). -/
def demoB : HandoffRow :=
  { id := "b", created_at := 200, summary := "med follow-up", category := "meds",
    priority := "medium", location_code := none, status := some "open",
    last_update_at := none, last_update_by_snapshot := none }

/-- A two-row demo feed: a resolved row listed before an open one. -/
def demoFeed : List HandoffRow := [demoA, demoB]

/-- C2 witness: on the concrete `demoFeed` the ordering property is realized
at indices 0 and 1 (the open row sorts before the resolved one). -/
theorem c2_feed_ordering_witness :
    0 < (visibleHandoffs demoFeed true).length ∧
    1 < (visibleHandoffs demoFeed true).length ∧
    (0 : Nat) < 1 ∧
    ((isResolvedStatus ((visibleHandoffs demoFeed true).getD 0 defaultRow).status = true →
        isResolvedStatus ((visibleHandoffs demoFeed true).getD 1 defaultRow).status = true) ∧
     (isResolvedStatus ((visibleHandoffs demoFeed true).getD 0 defaultRow).status
         = isResolvedStatus ((visibleHandoffs demoFeed true).getD 1 defaultRow).status →
        effTime ((visibleHandoffs demoFeed true).getD 1 defaultRow)
          ≤ effTime ((visibleHandoffs demoFeed true).getD 0 defaultRow))) :=
  ⟨by decide, by decide, by decide,
    c2_feed_ordering demoFeed true 0 1 (by decide) (by decide) (by decide)⟩

theorem visibleHandoffsGen_idem (res : Option String → Bool) (l : List HandoffRow)
    (sr : Bool) :
    visibleHandoffsGen res (visibleHandoffsGen res l sr) sr = visibleHandoffsGen res l sr := by
  have h1 : sortFeedGen res (visibleHandoffsGen res l sr) = visibleHandoffsGen res l sr :=
    (sorted_visibleHandoffsGen res l sr).insertionSort_eq
  cases sr with
  | true =>
    show sortFeedGen res (visibleHandoffsGen res l true) = visibleHandoffsGen res l true
    exact h1
  | false =>
    show (sortFeedGen res (visibleHandoffsGen res l false)).filter _
        = visibleHandoffsGen res l false
    rw [h1]
    show ((sortFeedGen res l).filter _).filter _ = (sortFeedGen res l).filter _
    rw [List.filter_filter]
    simp

/-- C3: the sort-and-filter feed policy is idempotent on both feed screens:
applying `visibleHandoffs` to its own output (with the same resolved-toggle)
returns the same sequence. -/
theorem c3_ordering_idempotent (l : List HandoffRow) (sr : Bool) :
    visibleHandoffs (visibleHandoffs l sr) sr = visibleHandoffs l sr ∧
    visibleHandoffsLegacy (visibleHandoffsLegacy l sr) sr = visibleHandoffsLegacy l sr :=
  ⟨visibleHandoffsGen_idem isResolvedStatus l sr,
   visibleHandoffsGen_idem isResolvedStatusLegacy l sr⟩

/-! ### Detail screen: resolve operation (part_000, `markResolved`)

The update call
`supabase.from("handoffs").update({status:"resolved", last_update_at: now}).eq("id", ...).select("id, status, last_update_at")`
re-requests the written row. The backend is modelled explicitly: a thrown
error, or the list of affected rows returned by `.select` — the empty list
when row-level security silently rejects the write. The client state touched
by `markResolved` (the `handoff`, `errorMsg` and `toast` fields) is carried
in `ResolveResult`.
-/

structure Handoff where
  id : String
  created_at : Int
  summary : String
  category : String
  priority : String
  location_code : Option String
  status : Option String
  last_update_at : Option Int
deriving Repr, DecidableEq

/-- The columns `"id, status, last_update_at"` re-selected by the update call. -/
structure ResolvedRowSel where
  id : String
  status : Option String
  last_update_at : Option Int
deriving Repr, DecidableEq

/-- Backend behaviour of the update-returning-rows request: when row-level
security permits, the row is updated to status `"resolved"` with
`last_update_at = now` and returned; when it silently rejects, zero rows
come back (and no error is thrown). -/
def dbUpdateResolve (h : Handoff) (now : Int) (rlsPermits : Bool) : List ResolvedRowSel :=
  if rlsPermits then [{ id := h.id, status := some "resolved", last_update_at := some now }]
  else []

/-- The client state after `markResolved` returns. -/
structure ResolveResult where
  handoff : Handoff
  errorMsg : Option String
  toast : Option String
deriving Repr, DecidableEq

/-- The error text thrown on the zero-rows path of `markResolved`. -/
def rlsErrorMsg : String :=
  "0 rows updated. RLS is blocking UPDATE on handoffs. Fix Supabase policy for UPDATE."

/-- `markResolved` of the detail screen, as a function of the backend's
response to the update request: a thrown error is caught and rendered; a
zero-row response raises (and then renders) the RLS error; a returned row
updates the local handoff state and sets the success toast. -/
def markResolved (h : Handoff) (resp : Except String (List ResolvedRowSel)) : ResolveResult :=
  match resp with
  | .error e => { handoff := h, errorMsg := some e, toast := none }
  | .ok rows =>
    match rows with
    | [] => { handoff := h, errorMsg := some rlsErrorMsg, toast := none }
    | u :: _ =>
      { handoff := { h with status := u.status, last_update_at := u.last_update_at },
        errorMsg := none, toast := some "✅ Marked resolved." }

/-- The whole resolve round trip: issue the update, feed the backend's
row list back into the client handler. -/
def markResolvedOp (h : Handoff) (now : Int) (rlsPermits : Bool) : ResolveResult :=
  markResolved h (.ok (dbUpdateResolve h now rlsPermits))

/-- The Mark-Resolved button's disabled predicate:
`disabled={resolving || resolvedNow}` with
`resolvedNow = isResolvedStatus(handoff?.status)`. -/
def resolveDisabled (resolving : Bool) (handoff : Option Handoff) : Bool :=
  resolving || isResolvedStatusDetail (handoff.bind Handoff.status)

/-- C4: resolving an open handoff (when the write is permitted) transitions
its status to `"resolved"` and sets a non-null last-update timestamp, after
which the Mark-Resolved button's disabled-action precondition rejects a
second invocation; on the open handoff itself the button was enabled. -/
theorem c4_resolve_transition (h : Handoff) (now : Int) (hOpen : h.status = some "open") :
    (markResolvedOp h now true).handoff.status = some "resolved" ∧
    (markResolvedOp h now true).handoff.last_update_at = some now ∧
    resolveDisabled false (some (markResolvedOp h now true).handoff) = true ∧
    resolveDisabled false (some h) = false := by
  refine ⟨rfl, rfl, ?_, ?_⟩
  · simp [markResolvedOp, markResolved, dbUpdateResolve, resolveDisabled]
    decide
  · simp [resolveDisabled, hOpen]
    decide

/-- C4 witness: a concrete open handoff. -/
theorem c4_resolve_transition_witness :
    ({ id := "h1", created_at := 100, summary := "vent check", category := "equipment",
       priority := "high", location_code := none, status := some "open",
       last_update_at := none } : Handoff).status = some "open" ∧
    ((markResolvedOp
        { id := "h1", created_at := 100, summary := "vent check", category := "equipment",
          priority := "high", location_code := none, status := some "open",
          last_update_at := none } 500 true).handoff.status = some "resolved" ∧
     (markResolvedOp
        { id := "h1", created_at := 100, summary := "vent check", category := "equipment",
          priority := "high", location_code := none, status := some "open",
          last_update_at := none } 500 true).handoff.last_update_at = some 500 ∧
     resolveDisabled false (some (markResolvedOp
        { id := "h1", created_at := 100, summary := "vent check", category := "equipment",
          priority := "high", location_code := none, status := some "open",
          last_update_at := none } 500 true).handoff) = true ∧
     resolveDisabled false (some
        { id := "h1", created_at := 100, summary := "vent check", category := "equipment",
          priority := "high", location_code := none, status := some "open",
          last_update_at := none }) = false) :=
  ⟨rfl, c4_resolve_transition _ 500 rfl⟩

/-- C5: when the write is silently rejected by access control (zero rows
returned, no thrown error), `markResolved` surfaces the RLS permission error
instead of reporting success, and the local handoff state is left unchanged
(in particular it is not marked resolved, and no success toast is set). -/
theorem c5_silent_rejection_surfaced (h : Handoff) (now : Int) :
    (markResolvedOp h now false).errorMsg = some rlsErrorMsg ∧
    (markResolvedOp h now false).handoff = h ∧
    (markResolvedOp h now false).toast = none :=
  ⟨rfl, rfl, rfl⟩

/-! ### Relay endpoints

Each serverless handler is a function from the request (already parsed:
header values and body fields as optional strings) and its environment (the
configured shared secret, the token-to-handoff mapping) to a response tag
paired with the list of `handoff_updates` inserts it issues.
-/

/-- A row insert into `handoff_updates`. -/
structure InsertUpdateReq where
  handoff_id : String
  author_user_id : Option String
  author_display_name_snapshot : Option String
  source : String
  message : String
deriving Repr, DecidableEq

inductive RelayResponse where
  | ok
  | unauthorized
  | badRequest (error : String)
  | notFound (error : String)
deriving Repr, DecidableEq

/-- The shared-secret guard used verbatim by `/api/sms/alert` and
`/api/sms/notify`: when a secret is configured, the request fails unless the
`x-webhook-secret` header is present, non-empty and equal to it
(`if (webhookSecret) { const got = ...; if (!got || got !== webhookSecret) ... }`). -/
def secretCheckFails (webhookSecret gotSecret : Option String) : Bool :=
  match webhookSecret with
  | some sec =>
    let got := jsOrStr gotSecret ""
    got == "" || got != sec
  | none => false

/-- The `sms:` author snapshot: `from ? "sms:" + from : "sms"`. -/
def smsAuthorSnapshot (from_ : Option String) : String :=
  let f := jsOrStr from_ ""
  if f == "" then "sms" else "sms:" ++ f

/-- POST handler of the id-addressed inbound relay `/api/sms/alert`
(src/app/api/sms/alert/route.ts): validate the shared secret, require
`handoff_id` and `message`, then issue one append-only insert with source
`"sms"`. -/
def smsAlertPost (webhookSecret gotSecret handoff_id message from_ : Option String) :
    RelayResponse × List InsertUpdateReq :=
  if secretCheckFails webhookSecret gotSecret then (.unauthorized, [])
  else
    let hid := jsOrStr handoff_id ""
    let msg := jsOrStr message ""
    if hid == "" || msg == "" then
      (.badRequest "handoff_id and message are required", [])
    else
      (.ok, [{ handoff_id := hid, author_user_id := none,
               author_display_name_snapshot := some (smsAuthorSnapshot from_),
               source := "sms", message := strTrim msg }])

/-- JS word character for the regex word-boundary assertion: `[A-Za-z0-9_]`. -/
def isWordChar (c : Char) : Bool :=
  c.isAlphanum || c == '_'

/-- One attempted match of `H:([A-Za-z0-9]{4,12})\b` starting at the head of
the list. Greedy matching of the bounded repetition followed by the trailing
word boundary succeeds exactly when the maximal alphanumeric run after `H:`
has length between 4 and 12 and the character after the run (if any) is not a
word character; a strictly longer run makes every backtracking length fail
its boundary. -/
def tokenRunAt (rest : List Char) : Option (List Char) :=
  match rest with
  | 'H' :: ':' :: tail =>
    let run := tail.takeWhile Char.isAlphanum
    let after := tail.drop run.length
    if 4 ≤ run.length && run.length ≤ 12 &&
        (match after with
         | [] => true
         | c :: _ => !(isWordChar c)) then
      some run
    else none
  | _ => none

/-- Left-to-right scan for the leftmost match of `\bH:([A-Za-z0-9]{4,12})\b`,
carrying the previous character to decide the leading word boundary. -/
def scanToken (prev : Option Char) : List Char → Option (List Char)
  | [] => none
  | c :: rest =>
    let boundary :=
      match prev with
      | none => true
      | some p => !(isWordChar p)
    if boundary then
      match tokenRunAt (c :: rest) with
      | some run => some run
      | none => scanToken (some c) rest
    else scanToken (some c) rest

/-- `extractToken` of the token-addressed relay (part_004):
`body.match(/\bH:([A-Za-z0-9]{4,12})\b/)`, returning capture group 1. -/
def extractToken (s : String) : Option String :=
  (scanToken none s.data).map fun cs => String.mk cs

/-- POST handler of the token-addressed inbound relay (part_004, first
handler): trim the body, extract the `H:`-token, look it up in
`handoff_tokens`, and insert one update with source `"sms"`. The handler
never reads any secret header: `webhookSecret` and `gotSecret` are the
request context it receives but ignores (no secret validation exists in this
handler's source). -/
def tokenRelayPost (_webhookSecret _gotSecret : Option String) (message : String)
    (from_ : Option String) (tokenMap : String → Option String) :
    RelayResponse × List InsertUpdateReq :=
  let msg := strTrim message
  match extractToken msg with
  | none => (.badRequest "Missing token. Include e.g. H:ABC123 in reply.", [])
  | some tok =>
    match tokenMap tok with
    | none => (.notFound "Unknown token.", [])
    | some hid =>
      (.ok, [{ handoff_id := hid, author_user_id := none,
               author_display_name_snapshot := some (smsAuthorSnapshot from_),
               source := "sms", message := msg }])

/-- Token mapping with the single token `AB12` pointing at handoff `handoff-y`. -/
def demoTokenMap : String → Option String :=
  fun t => if t = "AB12" then some "handoff-y" else none

/-- C6 counterexample: with a shared secret configured, a request to the
token-addressed inbound relay carrying no secret header (or a wrong one)
is NOT rejected as Unauthorized: the handler performs its write and answers
ok, because it never validates any secret. -/
theorem c6_counterexample :
    (tokenRelayPost (some "topsecret") none "Update: all clear H:AB12" none demoTokenMap).1
      = RelayResponse.ok ∧
    (tokenRelayPost (some "topsecret") none "Update: all clear H:AB12" none demoTokenMap).2.length
      = 1 ∧
    (tokenRelayPost (some "topsecret") (some "wrong") "Update: all clear H:AB12" none
        demoTokenMap).1 = RelayResponse.ok := by
  refine ⟨by decide, by decide, by decide⟩

/-- C6 (amended): the id-addressed inbound relay `/api/sms/alert` does
validate the configured shared secret from the `x-webhook-secret` header and
fails Unauthorized, issuing no write, whenever the header is missing, empty
or different from the secret; the token-addressed relay performs no secret
validation (see the counterexample). -/
theorem c6_secret_validation (sec : String)
    (gotSecret handoff_id message from_ : Option String)
    (hbad : secretCheckFails (some sec) gotSecret = true) :
    smsAlertPost (some sec) gotSecret handoff_id message from_
      = (RelayResponse.unauthorized, []) := by
  simp [smsAlertPost, hbad]

/-- C6 witness: a concrete request with the secret configured and no header. -/
theorem c6_secret_validation_witness :
    secretCheckFails (some "s3cret") none = true ∧
    smsAlertPost (some "s3cret") none (some "h1") (some "hello") none
      = (RelayResponse.unauthorized, []) :=
  ⟨by decide, c6_secret_validation "s3cret" none (some "h1") (some "hello") none (by decide)⟩

/-- C7: behaviour of the token-addressed relay. A body whose (trimmed) text
contains a `H:<4-12 alphanumerics>` token that maps to a handoff makes the
relay append exactly one update to that handoff with source `"sms"` (and the
trimmed body as message); a body with no token pattern yields the BadRequest
error with no write; an unmapped token yields NotFound with no write. -/
theorem c7_token_relay (webhookSecret gotSecret : Option String) (message : String)
    (from_ : Option String) (tokenMap : String → Option String) :
    (extractToken (strTrim message) = none →
       tokenRelayPost webhookSecret gotSecret message from_ tokenMap
         = (RelayResponse.badRequest "Missing token. Include e.g. H:ABC123 in reply.", [])) ∧
    (∀ tok, extractToken (strTrim message) = some tok → tokenMap tok = none →
       tokenRelayPost webhookSecret gotSecret message from_ tokenMap
         = (RelayResponse.notFound "Unknown token.", [])) ∧
    (∀ tok hid, extractToken (strTrim message) = some tok → tokenMap tok = some hid →
       tokenRelayPost webhookSecret gotSecret message from_ tokenMap
         = (RelayResponse.ok,
            [{ handoff_id := hid, author_user_id := none,
               author_display_name_snapshot := some (smsAuthorSnapshot from_),
               source := "sms", message := strTrim message }])) := by
  refine ⟨?_, ?_, ?_⟩
  · intro h
    simp [tokenRelayPost, h]
  · intro tok h1 h2
    simp [tokenRelayPost, h1, h2]
  · intro tok hid h1 h2
    simp [tokenRelayPost, h1, h2]

/-- C7 witness: the three branches realized on concrete bodies against
`demoTokenMap`. -/
theorem c7_token_relay_witness :
    extractToken (strTrim "Update: all clear H:AB12") = some "AB12" ∧
    demoTokenMap "AB12" = some "handoff-y" ∧
    tokenRelayPost none none "Update: all clear H:AB12" none demoTokenMap
      = (RelayResponse.ok,
         [{ handoff_id := "handoff-y", author_user_id := none,
            author_display_name_snapshot := some "sms", source := "sms",
            message := "Update: all clear H:AB12" }]) ∧
    extractToken (strTrim "no token here") = none ∧
    tokenRelayPost none none "no token here" none demoTokenMap
      = (RelayResponse.badRequest "Missing token. Include e.g. H:ABC123 in reply.", []) ∧
    extractToken (strTrim "H:ZZZZ9 visit") = some "ZZZZ9" ∧
    demoTokenMap "ZZZZ9" = none ∧
    tokenRelayPost none none "H:ZZZZ9 visit" none demoTokenMap
      = (RelayResponse.notFound "Unknown token.", []) :=
  ⟨by decide, by decide,
   (c7_token_relay none none "Update: all clear H:AB12" none demoTokenMap).2.2
     "AB12" "handoff-y" (by decide) (by decide),
   by decide,
   (c7_token_relay none none "no token here" none demoTokenMap).1 (by decide),
   by decide, by decide,
   (c7_token_relay none none "H:ZZZZ9 visit" none demoTokenMap).2.1
     "ZZZZ9" (by decide) (by decide)⟩

inductive NotifyResponse where
  | unauthorized
  | badRequest
  | skipped
  | alerted
deriving Repr, DecidableEq

/-- The audit message of `/api/sms/notify`:
`"SYSTEM: SMS ALERT TRIGGERED (high)" + (location_code ? " [" + lc + "]" : "") + ": " + String(summary || "").slice(0, 120)`. -/
def notifyMessage (summary location_code : Option String) : String :=
  "SYSTEM: SMS ALERT TRIGGERED (high)" ++
    (let lc := jsOrStr location_code ""
     if lc == "" then "" else " [" ++ lc ++ "]") ++
    ": " ++ String.mk ((jsOrStr summary "").data.take 120)

/-- POST handler of the outbound-alert-audit endpoint `/api/sms/notify`
(part_003): validate the shared secret, require `handoff_id` and `priority`,
lowercase the priority, skip without writing unless it is `"high"`, else
append one system-sourced audit update with the truncated summary. -/
def smsNotifyPost (webhookSecret gotSecret handoff_id summary priority
    location_code : Option String) : NotifyResponse × List InsertUpdateReq :=
  if secretCheckFails webhookSecret gotSecret then (.unauthorized, [])
  else if jsOrStr handoff_id "" == "" || jsOrStr priority "" == "" then (.badRequest, [])
  else
    let p := strToLower (jsOrStr priority "")
    if p != "high" then (.skipped, [])
    else
      (.alerted, [{ handoff_id := jsOrStr handoff_id "", author_user_id := none,
                    author_display_name_snapshot := some "system", source := "system",
                    message := notifyMessage summary location_code }])

/-- C8 counterexample: the priority comparison is case-insensitive, not
exact. The raw priority `"HIGH"` differs from `"high"`, yet the endpoint
writes one audit update and answers alerted instead of skipping. -/
theorem c8_counterexample :
    ("HIGH" : String) ≠ "high" ∧
    (smsNotifyPost none none (some "h1") (some "pump alarm") (some "HIGH") none).1
      = NotifyResponse.alerted ∧
    (smsNotifyPost none none (some "h1") (some "pump alarm") (some "HIGH") none).2.length
      = 1 := by
  refine ⟨by decide, by decide, by decide⟩

/-- C8 (amended): for every authorized request with the required fields
present, the endpoint appends exactly one system-sourced update containing
the summary truncated to 120 characters and answers alerted when the
priority lowercases to `"high"`; for any priority that does not lowercase to
`"high"` (e.g. `"medium"`) it writes nothing and answers skipped. -/
theorem c8_alert_policy (webhookSecret gotSecret handoff_id summary priority
      location_code : Option String)
    (hauth : secretCheckFails webhookSecret gotSecret = false)
    (hhid : (jsOrStr handoff_id "" == "") = false)
    (hpri : (jsOrStr priority "" == "") = false) :
    (strToLower (jsOrStr priority "") = "high" →
       smsNotifyPost webhookSecret gotSecret handoff_id summary priority location_code
         = (NotifyResponse.alerted,
            [{ handoff_id := jsOrStr handoff_id "", author_user_id := none,
               author_display_name_snapshot := some "system", source := "system",
               message := notifyMessage summary location_code }])) ∧
    (strToLower (jsOrStr priority "") ≠ "high" →
       smsNotifyPost webhookSecret gotSecret handoff_id summary priority location_code
         = (NotifyResponse.skipped, [])) ∧
    notifyMessage summary location_code
      = "SYSTEM: SMS ALERT TRIGGERED (high)" ++
          (let lc := jsOrStr location_code ""
           if lc == "" then "" else " [" ++ lc ++ "]") ++
          ": " ++ String.mk ((jsOrStr summary "").data.take 120) := by
  refine ⟨?_, ?_, rfl⟩
  · intro hp
    simp [smsNotifyPost, hauth, hhid, hpri, hp]
  · intro hp
    simp [smsNotifyPost, hauth, hhid, hpri, hp]

/-- C8 witness: a high-priority and a medium-priority concrete request. -/
theorem c8_alert_policy_witness :
    secretCheckFails none none = false ∧
    (jsOrStr (some "h1") "" == "") = false ∧
    (jsOrStr (some "high") "" == "") = false ∧
    smsNotifyPost none none (some "h1") (some "pump alarm") (some "high") (some "ICU-1")
      = (NotifyResponse.alerted,
         [{ handoff_id := "h1", author_user_id := none,
            author_display_name_snapshot := some "system", source := "system",
            message := "SYSTEM: SMS ALERT TRIGGERED (high) [ICU-1]: pump alarm" }]) ∧
    smsNotifyPost none none (some "h1") (some "pump alarm") (some "medium") none
      = (NotifyResponse.skipped, []) :=
  ⟨by decide, by decide, by decide,
   (c8_alert_policy none none (some "h1") (some "pump alarm") (some "high") (some "ICU-1")
      (by decide) (by decide) (by decide)).1 (by decide),
   ((c8_alert_policy none none (some "h1") (some "pump alarm") (some "medium") none
      (by decide) (by decide) (by decide)).2.1 (by decide))⟩

/-! ### Feed loaders: session, onboarding gate, feed fetch

`loadSessionAndFeed` is embedded as a function from the backend responses
(session lookup, profile row, handoffs query) to the resulting screen state
together with the trace of data requests the function issued, in order. The
gated feed (part_001) checks the profile and redirects to `/onboarding`
before ever querying `handoffs`; the legacy feed (src/app/page.tsx) has no
profile check at all.
-/

/-- The columns `"display_name, shift"` selected from `profiles`. -/
structure ProfileSel where
  display_name : Option String
  shift : Option String
deriving Repr, DecidableEq

inductive FeedRequest where
  | profileRead (uid : String)
  | handoffsRead
deriving Repr, DecidableEq

structure FeedLoadResult where
  requests : List FeedRequest
  redirect : Option String
  errorMsg : Option String
  handoffs : List HandoffRow
deriving Repr, DecidableEq

/-- `loadSessionAndFeed` of the onboarding-gated feed (part_001, lines
165-228): session errors render; an absent user clears the list; then the
profile is read, and unless the trimmed display name and shift are both
non-empty the function redirects to `/onboarding` and returns without
querying `handoffs`; only past the gate is the feed fetched. -/
def loadSessionAndFeedGated (sessionResp : Except String (Option String))
    (profileResp : Except String (Option ProfileSel))
    (handoffsResp : Except String (List HandoffRow)) : FeedLoadResult :=
  match sessionResp with
  | .error e => { requests := [], redirect := none, errorMsg := some e, handoffs := [] }
  | .ok none => { requests := [], redirect := none, errorMsg := none, handoffs := [] }
  | .ok (some uid) =>
    match profileResp with
    | .error e =>
      { requests := [.profileRead uid], redirect := none, errorMsg := some e, handoffs := [] }
    | .ok prof =>
      let dn := strTrim (jsOrStr (prof.bind ProfileSel.display_name) "")
      let sh := strTrim (jsOrStr (prof.bind ProfileSel.shift) "")
      if dn == "" || sh == "" then
        { requests := [.profileRead uid], redirect := some "/onboarding",
          errorMsg := none, handoffs := [] }
      else
        match handoffsResp with
        | .error e =>
          { requests := [.profileRead uid, .handoffsRead], redirect := none,
            errorMsg := some e, handoffs := [] }
        | .ok data =>
          { requests := [.profileRead uid, .handoffsRead], redirect := none,
            errorMsg := none, handoffs := data }

/-- `loadSessionAndFeed` of the legacy feed (src/app/page.tsx, lines
112-151): after the session check it queries `handoffs` immediately — no
profile read, no onboarding redirect exists in this loader. -/
def loadSessionAndFeedLegacy (sessionResp : Except String (Option String))
    (handoffsResp : Except String (List HandoffRow)) : FeedLoadResult :=
  match sessionResp with
  | .error e => { requests := [], redirect := none, errorMsg := some e, handoffs := [] }
  | .ok none => { requests := [], redirect := none, errorMsg := none, handoffs := [] }
  | .ok (some _) =>
    match handoffsResp with
    | .error e =>
      { requests := [.handoffsRead], redirect := none, errorMsg := some e, handoffs := [] }
    | .ok data =>
      { requests := [.handoffsRead], redirect := none, errorMsg := none, handoffs := data }

/-- C9 counterexample: on the legacy feed screen a signed-in actor is never
redirected to onboarding and the handoff read is issued unconditionally —
the loader consults no profile at all, so this holds in particular for an
actor whose profile is incomplete. -/
theorem c9_counterexample :
    (loadSessionAndFeedLegacy (.ok (some "user-1")) (.ok [])).redirect = none ∧
    (loadSessionAndFeedLegacy (.ok (some "user-1")) (.ok [])).requests
      = [FeedRequest.handoffsRead] :=
  ⟨rfl, rfl⟩

/-- C9 (amended): on the onboarding-gated feed, a signed-in actor whose
profile has a blank (after trimming) display name or shift is redirected to
`/onboarding` and the loader issues only the profile read — no handoff read
happens before the redirect. The legacy feed screen performs no such gate
(see the counterexample). -/
theorem c9_onboarding_gate (uid : String) (prof : Option ProfileSel)
    (handoffsResp : Except String (List HandoffRow))
    (hIncomplete :
      (strTrim (jsOrStr (prof.bind ProfileSel.display_name) "") == "") = true ∨
      (strTrim (jsOrStr (prof.bind ProfileSel.shift) "") == "") = true) :
    loadSessionAndFeedGated (.ok (some uid)) (.ok prof) handoffsResp
      = { requests := [.profileRead uid], redirect := some "/onboarding",
          errorMsg := none, handoffs := [] } := by
  rcases hIncomplete with h | h <;> simp [loadSessionAndFeedGated, h]

/-- C9 witness: a signed-in actor with no profile row at all. -/
theorem c9_onboarding_gate_witness :
    ((strTrim (jsOrStr ((none : Option ProfileSel).bind ProfileSel.display_name) "") == "")
        = true ∨
     (strTrim (jsOrStr ((none : Option ProfileSel).bind ProfileSel.shift) "") == "")
        = true) ∧
    loadSessionAndFeedGated (.ok (some "user-1")) (.ok none) (.ok [])
      = { requests := [FeedRequest.profileRead "user-1"], redirect := some "/onboarding",
          errorMsg := none, handoffs := [] } :=
  ⟨Or.inl (by decide), c9_onboarding_gate "user-1" none (.ok []) (Or.inl (by decide))⟩

/-! ### Server-side resolve endpoint (part_004, second handler) -/

/-- The status value written by the server-side resolve endpoint:
`.update({ status: "closed" })`. -/
def serverResolveStatusValue : String := "closed"

/-- Effect of the server-side resolve endpoint's update on the targeted
handoff row: the status becomes `"closed"` (and no other column — in
particular not `last_update_at` — is touched; the handler separately appends
a system audit update). -/
def serverResolveApply (h : HandoffRow) : HandoffRow :=
  { h with status := some serverResolveStatusValue }

/-- C10: the server-side resolve endpoint writes `"closed"`, not
`"resolved"`; under the canonical three-value status policy of the detail
screen and the onboarding-gated feed, the row is then classified as not
resolved, its pill renders OPEN, and the feed comparator places it in the
unresolved group — strictly before every resolved row. -/
theorem c10_server_resolve_closed (h : HandoffRow) :
    (serverResolveApply h).status = some "closed" ∧
    serverResolveStatusValue ≠ "resolved" ∧
    isResolvedStatus (serverResolveApply h).status = false ∧
    isResolvedStatusDetail (serverResolveApply h).status = false ∧
    statusPillLabel (serverResolveApply h).status = "OPEN" ∧
    ∀ r : HandoffRow, isResolvedStatus r.status = true →
      feedLe (serverResolveApply h) r = true ∧ feedLe r (serverResolveApply h) = false := by
  have hst : (serverResolveApply h).status = some "closed" := rfl
  have hclosed : isResolvedStatus (serverResolveApply h).status = false := by
    rw [hst]; decide
  refine ⟨rfl, by decide, hclosed, by rw [hst]; decide, by rw [hst]; decide, ?_⟩
  intro r hr
  refine ⟨?_, ?_⟩ <;> simp [feedLe, feedLeGen, hclosed, hr]

/-- C10 witness: a concrete row resolved through the endpoint sorts before a
genuinely resolved row. -/
theorem c10_server_resolve_closed_witness :
    isResolvedStatus (serverResolveApply demoB).status = false ∧
    isResolvedStatus demoA.status = true ∧
    feedLe (serverResolveApply demoB) demoA = true ∧
    feedLe demoA (serverResolveApply demoB) = false :=
  ⟨(c10_server_resolve_closed demoB).2.2.1, by decide,
   ((c10_server_resolve_closed demoB).2.2.2.2.2 demoA (by decide)).1,
   ((c10_server_resolve_closed demoB).2.2.2.2.2 demoA (by decide)).2⟩

end CSHandoff
